import Mathlib

/-!
Shallow embedding of the 6502 CPU core in `src/cpu.rs`.

Conventions of the embedding:
* `u8` / `u16` / `u32` values are represented as `Nat`; wherever the Rust code
  performs arithmetic that wraps at the type's width (release-mode semantics,
  which the spec states is the intended behavior), the model takes `% 256`
  resp. `% 65536` explicitly.
* The 65535-entry memory array `memory: [u8; 0xFFFF]` is represented as a
  total function `Nat → Nat` together with the bound `memSize`; accesses whose
  index can reach `memSize` in the Rust code (absolute and indirect addressing,
  INC/DEC/ST targets) go through `readMem` / `writeMem`, which return
  `Except Fault _` and fault exactly when the Rust bounds check would panic.
  Accesses whose index is forced below the bound by the source itself
  (zero-page indices are reduced mod 255 or mod 256; stack accesses are
  `0x0100 + sp` with `sp` a `u8`, hence at most `0x01FF`) read and write the
  function directly, exactly as the Rust code can never fault there.
* Rust `panic!` sites (unknown opcode, indirect JMP, the unreachable branching
  default) and the implicit array-bounds panics are modeled as `Except.error`
  with a dedicated `Fault` constructor each.
-/

/-- Length of the `memory` array: the source declares `memory: [u8; 0xFFFF]`
and initializes it with `[0; 65535]`, i.e. 65535 entries. -/
def memSize : Nat := 0xFFFF

/-- The CPU state, mirroring `struct Cpu` field for field.
`change_interrupt_disable_flag` is the `i8` sentinel (-1 = no pending change). -/
structure Cpu where
  memory : Nat → Nat
  program_counter : Nat
  stack_pointer : Nat
  accumulator : Nat
  index_x : Nat
  index_y : Nat
  processor_status : Nat
  cycle : Nat
  change_interrupt_disable_flag : Int

/-- `struct Instruction`: `arguments.1` is `arguments[0]`, `arguments.2` is
`arguments[1]`. -/
structure Instruction where
  op_code : Nat
  arguments : Nat × Nat
  size : Nat

/-- `(self.arguments[0] as u16) << 8 | self.arguments[1] as u16` -/
def Instruction.get_absolute_addr (i : Instruction) : Nat :=
  (i.arguments.1 <<< 8) ||| i.arguments.2

/-- The fatal conditions of the interpreter: the two explicit `panic!` sites
reachable from a decoded instruction, the unreachable default arm of the
branching match, and the implicit panic of an out-of-bounds array index. -/
inductive Fault where
  | unknownOpcode
  | unsupportedAddressingMode
  | notImplementedBranchOpcode
  | indexOutOfBounds
deriving DecidableEq

/-- `Cpu::new` -/
def Cpu.new : Cpu where
  memory := fun _ => 0
  program_counter := 0
  stack_pointer := 0xFF
  accumulator := 0
  index_x := 0
  index_y := 0
  processor_status := 0
  cycle := 0
  change_interrupt_disable_flag := -1

/-- Bounds-checked read: `self.memory[addr]`, faulting where the Rust index
operation would panic (index `≥ 0xFFFF`). -/
def Cpu.readMem (s : Cpu) (addr : Nat) : Except Fault Nat :=
  if addr < memSize then .ok (s.memory addr) else .error .indexOutOfBounds

/-- Bounds-checked write: `self.memory[addr] = v`. -/
def Cpu.writeMem (s : Cpu) (addr v : Nat) : Except Fault Cpu :=
  if addr < memSize then
    .ok { s with memory := fun a => if a = addr then v else s.memory a }
  else .error .indexOutOfBounds

/-- `fn get_flag(&self, offset: u8) -> bool { (self.processor_status >> offset) & 1 == 1 }` -/
def Cpu.get_flag (s : Cpu) (offset : Nat) : Bool :=
  decide ((s.processor_status >>> offset) &&& 1 = 1)

/-- `fn set_flag(&mut self, val: bool, offset: u8)`; `!(1 << offset)` on `u8`
is `255 ^^^ (1 <<< offset)` for the offsets `0..7` used by the code. -/
def Cpu.set_flag (s : Cpu) (val : Bool) (offset : Nat) : Cpu :=
  { s with processor_status :=
      if val then s.processor_status ||| (1 <<< offset)
      else s.processor_status &&& (255 ^^^ (1 <<< offset)) }

def Cpu.get_flag_carry (s : Cpu) : Bool := s.get_flag 6
def Cpu.set_flag_carry (s : Cpu) (val : Bool) : Cpu := s.set_flag val 6
def Cpu.set_flag_carry_by_val (s : Cpu) (val : Nat) : Cpu :=
  s.set_flag_carry (decide (val > 0xFF))
def Cpu.get_flag_zero (s : Cpu) : Bool := s.get_flag 5
def Cpu.set_flag_zero (s : Cpu) (val : Bool) : Cpu := s.set_flag val 5
def Cpu.set_flag_zero_by_val (s : Cpu) (val : Nat) : Cpu :=
  s.set_flag_zero (decide (val = 0))
def Cpu.get_flag_overflow (s : Cpu) : Bool := s.get_flag 1
def Cpu.set_flag_overflow (s : Cpu) (val : Bool) : Cpu := s.set_flag val 1
def Cpu.set_flag_overflow_by_val (s : Cpu) (val : Nat) : Cpu :=
  s.set_flag_overflow (decide ((val >>> 6) &&& 1 = 1))
def Cpu.get_flag_negative (s : Cpu) : Bool := s.get_flag 0
def Cpu.set_flag_negative (s : Cpu) (val : Bool) : Cpu := s.set_flag val 0
def Cpu.set_flag_negative_by_val (s : Cpu) (val : Nat) : Cpu :=
  s.set_flag_negative (decide ((val >>> 7) &&& 1 = 1))
def Cpu.get_flag_decimal (s : Cpu) : Bool := s.get_flag 3
def Cpu.set_flag_decimal (s : Cpu) (val : Bool) : Cpu := s.set_flag val 3
def Cpu.get_flag_interrupt (s : Cpu) : Bool := s.get_flag 4
def Cpu.set_flag_interrupt (s : Cpu) (val : Bool) : Cpu := s.set_flag val 4

/-- `fn push(&mut self, val: u8)`: write to `memory[sp + 0x0100]`
(for a `u8` stack pointer this index is at most `0x01FF < memSize`, so the
Rust indexing cannot panic), then decrement `sp` wrapping mod 256. -/
def Cpu.push (s : Cpu) (val : Nat) : Cpu :=
  let s1 : Cpu :=
    { s with memory := fun a => if a = s.stack_pointer + 0x0100 then val else s.memory a }
  { s1 with stack_pointer := (s1.stack_pointer + 255) % 256 }

/-- `fn pop(&mut self) -> u8`: increment `sp` wrapping mod 256, then read
`memory[sp + 0x0100]`. Returns the byte together with the new state. -/
def Cpu.pop (s : Cpu) : Nat × Cpu :=
  let s1 : Cpu := { s with stack_pointer := (s.stack_pointer + 1) % 256 }
  (s1.memory (s1.stack_pointer + 0x0100), s1)

/-- `fn get_processor_status(&self) -> u8` -/
def Cpu.get_processor_status (s : Cpu) : Nat :=
  let out := 0b11 <<< 4
  let out := if s.get_flag_negative then out ||| (1 <<< 7) else out
  let out := if s.get_flag_overflow then out ||| (1 <<< 6) else out
  let out := if s.get_flag_decimal then out ||| (1 <<< 3) else out
  let out := if s.get_flag_interrupt then out ||| (1 <<< 2) else out
  let out := if s.get_flag_zero then out ||| (1 <<< 1) else out
  let out := if s.get_flag_carry then out ||| 1 else out
  out

/-- `fn set_processor_status(&mut self, flags: u8, delay: bool)`.
The `u8` left shifts `flags << k` truncate to 8 bits, hence the `% 256`. -/
def Cpu.set_processor_status (s : Cpu) (flags : Nat) (delay : Bool) : Cpu :=
  let s := s.set_flag_carry (decide (flags &&& 1 = 1))
  let s := s.set_flag_zero (decide (((flags <<< 1) % 256) &&& 1 = 1))
  let s :=
    if delay then
      { s with change_interrupt_disable_flag := (((flags <<< 2) % 256) &&& 1 : Nat) }
    else s.set_flag_interrupt (decide (((flags <<< 2) % 256) &&& 1 = 1))
  let s := s.set_flag_decimal (decide (((flags <<< 3) % 256) &&& 1 = 1))
  let s := s.set_flag_overflow (decide (((flags <<< 6) % 256) &&& 1 = 1))
  s.set_flag_negative (decide (((flags <<< 7) % 256) &&& 1 = 1))

/-- `fn get_addr_zero_index(&self, arg: u8) -> u8 { arg % 0xFF }` -/
def Cpu.get_addr_zero_index (_s : Cpu) (arg : Nat) : Nat := arg % 0xFF

/-- `fn get_addr_zero(&self, arg: u8) -> u8` (index `< 255`, always in bounds) -/
def Cpu.get_addr_zero (s : Cpu) (arg : Nat) : Nat :=
  s.memory (s.get_addr_zero_index arg)

def Cpu.set_addr_zero (s : Cpu) (arg value : Nat) : Cpu :=
  { s with memory := fun a => if a = s.get_addr_zero_index arg then value else s.memory a }

/-- `(arg + self.index_x) % 0xFF` with wrapping `u8` addition. -/
def Cpu.get_addr_zero_x_index (s : Cpu) (arg : Nat) : Nat :=
  ((arg + s.index_x) % 256) % 0xFF

def Cpu.get_addr_zero_x (s : Cpu) (arg : Nat) : Nat :=
  s.memory (s.get_addr_zero_x_index arg)

def Cpu.set_addr_zero_x (s : Cpu) (arg value : Nat) : Cpu :=
  { s with memory := fun a => if a = s.get_addr_zero_x_index arg then value else s.memory a }

/-- `(arg + self.index_y) % 0xFF` with wrapping `u8` addition. -/
def Cpu.get_addr_zero_y_index (s : Cpu) (arg : Nat) : Nat :=
  ((arg + s.index_y) % 256) % 0xFF

def Cpu.get_addr_zero_y (s : Cpu) (arg : Nat) : Nat :=
  s.memory (s.get_addr_zero_y_index arg)

/-- `fn get_addr_absolute(&self, arg: u16) -> u8 { self.memory[arg as usize] }`
(the index can reach `0xFFFF = memSize`, hence bounds-checked). -/
def Cpu.get_addr_absolute (s : Cpu) (arg : Nat) : Except Fault Nat :=
  s.readMem arg

def Cpu.set_addr_absolute (s : Cpu) (arg value : Nat) : Except Fault Cpu :=
  s.writeMem arg value

/-- `self.memory[(arg + self.index_x as u16) as usize]` (wrapping `u16` add). -/
def Cpu.get_addr_absolute_x (s : Cpu) (arg : Nat) : Except Fault Nat :=
  s.readMem ((arg + s.index_x) % 65536)

def Cpu.set_addr_absolute_x (s : Cpu) (arg value : Nat) : Except Fault Cpu :=
  s.writeMem ((arg + s.index_x) % 65536) value

def Cpu.get_addr_absolute_y (s : Cpu) (arg : Nat) : Except Fault Nat :=
  s.readMem ((arg + s.index_y) % 65536)

/-- `fn get_addr_indexed_indirect_index(&self, arg: u8) -> usize`:
the (Indirect,X) pointer, fetched from zero page (`u8` additions wrap mod 256,
then `& 0xFF`; both fetch indices are below 256, always in bounds). -/
def Cpu.get_addr_indexed_indirect_index (s : Cpu) (arg : Nat) : Nat :=
  (s.memory ((arg + s.index_x + 1) % 256) <<< 8) ||| s.memory ((arg + s.index_x) % 256)

/-- `fn get_addr_indexed_indirect(&self, arg: u8) -> u8`: dereference the
(Indirect,X) pointer; the pointer is a full `u16`, hence bounds-checked. -/
def Cpu.get_addr_indexed_indirect (s : Cpu) (arg : Nat) : Except Fault Nat :=
  s.readMem (s.get_addr_indexed_indirect_index arg)

/-- `fn get_addr_indirect_indexed_index(&self, arg: u8) -> usize`:
the (Indirect),Y pointer plus `index_y` (wrapping `u16` addition). -/
def Cpu.get_addr_indirect_indexed_index (s : Cpu) (arg : Nat) : Nat :=
  (((s.memory ((arg + 1) % 256) <<< 8) ||| s.memory arg) + s.index_y) % 65536

def Cpu.get_addr_indirect_indexed (s : Cpu) (arg : Nat) : Except Fault Nat :=
  s.readMem (s.get_addr_indirect_indexed_index arg)

/-- `fn increment_if_crossed_absolute(base: u32, addr: u16, inc: u8) -> u32` -/
def increment_if_crossed_absolute (base addr inc : Nat) : Nat :=
  if ((addr + inc) % 65536) &&& 0xFF00 = addr &&& 0xFF00 then base else base + 1

/-- `fn increment_if_crossed_indirect_indexed(base: u32, addr: u8, cpu: &Cpu) -> u32`
(the `u16` subtraction `indirect_indexed - index_y` wraps). -/
def increment_if_crossed_indirect_indexed (base addr : Nat) (s : Cpu) : Nat :=
  let indirect_indexed := s.get_addr_indirect_indexed_index addr
  if ((indirect_indexed + 65536 - s.index_y % 65536) % 65536) &&& 0xFF00
      = indirect_indexed &&& 0xFF00 then base
  else base + 1

/-- `value.cast_signed() as u16`: sign-extend a byte from `i8` to `u16`. -/
def sext8 (v : Nat) : Nat := if v < 128 then v else 0xFF00 + v

/-- `fn branch_if_condition(&mut self, value: u8, condition: bool) -> u16`:
returns the updated state (cycle charges) and the next program counter. -/
def Cpu.branch_if_condition (s : Cpu) (value : Nat) (condition : Bool) : Cpu × Nat :=
  let s := { s with cycle := s.cycle + 2 }
  if !condition then (s, (s.program_counter + 2) % 65536)
  else
    let new_pc := (s.program_counter + 2 + sext8 value) % 65536
    let s := { s with cycle := s.cycle +
        (if new_pc &&& 0xFF00 = s.program_counter &&& 0xFF00 then 1 else 2) }
    (s, new_pc)

/-- `fn execute_adc(&mut self, memory: u8, cycles: u32)`. The `u16` sum is at
most `511`, so no truncation is needed on `result` itself. -/
def Cpu.execute_adc (s : Cpu) (memory : Nat) (cycles : Nat) : Cpu :=
  let result := s.accumulator + memory + (if s.get_flag_carry then 1 else 0)
  let s := s.set_flag_carry_by_val result
  let s := s.set_flag_zero_by_val (result % 256)
  let s := s.set_flag_overflow
      (decide ((result ^^^ s.accumulator) &&& (result ^^^ memory) &&& 0x80 = 0x80))
  let s := s.set_flag_negative_by_val (result % 256)
  let s := { s with accumulator := result &&& 0xFF }
  { s with cycle := s.cycle + cycles }

def Cpu.execute_and (s : Cpu) (memory : Nat) (cycles : Nat) : Cpu :=
  let result := s.accumulator &&& memory
  let s := s.set_flag_zero_by_val result
  let s := s.set_flag_negative_by_val result
  let s := { s with accumulator := result }
  { s with cycle := s.cycle + cycles }

/-- Write-back target of the accumulator variants of ASL/LSR/ROL/ROR:
the closure `|cpu, r| cpu.accumulator = r`. -/
def accWrite : Cpu → Nat → Except Fault Cpu :=
  fun c r => .ok { c with accumulator := r }

/-- `fn execute_asl<R>(&mut self, value: u8, r: R, cycles: u32)`
(`value << 1` on `u8` truncates, hence `% 256`). -/
def Cpu.execute_asl (s : Cpu) (value : Nat) (r : Cpu → Nat → Except Fault Cpu)
    (cycles : Nat) : Except Fault Cpu := do
  let result := (value <<< 1) % 256
  let s := s.set_flag_carry (decide ((value >>> 7) &&& 1 = 1))
  let s := s.set_flag_zero (decide (result = 0))
  let s := s.set_flag_negative_by_val result
  let s ← r s result
  return { s with cycle := s.cycle + cycles }

def Cpu.execute_bit (s : Cpu) (value : Nat) (cycles : Nat) : Cpu :=
  let result := s.accumulator &&& value
  let s := s.set_flag_zero_by_val result
  let s := s.set_flag_overflow_by_val result
  let s := s.set_flag_negative_by_val result
  { s with cycle := s.cycle + cycles }

def Cpu.execute_cmp (s : Cpu) (value : Nat) (cycles : Nat) : Cpu :=
  let s := s.set_flag_carry (decide (s.accumulator ≥ value))
  let s := s.set_flag_zero (decide (s.accumulator = value))
  let s := s.set_flag_negative (decide (s.accumulator < value))
  { s with cycle := s.cycle + cycles }

def Cpu.execute_cmx (s : Cpu) (value : Nat) (cycles : Nat) : Cpu :=
  let s := s.set_flag_carry (decide (s.index_x ≥ value))
  let s := s.set_flag_zero (decide (s.index_x = value))
  let s := s.set_flag_negative (decide (s.index_x < value))
  { s with cycle := s.cycle + cycles }

def Cpu.execute_cmy (s : Cpu) (value : Nat) (cycles : Nat) : Cpu :=
  let s := s.set_flag_carry (decide (s.index_y ≥ value))
  let s := s.set_flag_zero (decide (s.index_y = value))
  let s := s.set_flag_negative (decide (s.index_y < value))
  { s with cycle := s.cycle + cycles }

/-- `fn execute_dec(&mut self, addr: u16, cycles: u32)` (`u8` decrement wraps). -/
def Cpu.execute_dec (s : Cpu) (addr : Nat) (cycles : Nat) : Except Fault Cpu := do
  let v ← s.readMem addr
  let result := (v + 255) % 256
  let s ← s.writeMem addr result
  let s := s.set_flag_zero_by_val result
  let s := s.set_flag_negative_by_val result
  return { s with cycle := s.cycle + cycles }

def Cpu.execute_eor (s : Cpu) (value : Nat) (cycles : Nat) : Cpu :=
  let s := { s with accumulator := s.accumulator ^^^ value }
  let s := s.set_flag_zero_by_val s.accumulator
  let s := s.set_flag_negative_by_val s.accumulator
  { s with cycle := s.cycle + cycles }

def Cpu.execute_inc (s : Cpu) (addr : Nat) (cycles : Nat) : Except Fault Cpu := do
  let v ← s.readMem addr
  let result := (v + 1) % 256
  let s ← s.writeMem addr result
  let s := s.set_flag_zero_by_val result
  let s := s.set_flag_negative_by_val result
  return { s with cycle := s.cycle + cycles }

def Cpu.execute_lda (s : Cpu) (value : Nat) (cycles : Nat) : Cpu :=
  let s := { s with accumulator := value }
  let s := s.set_flag_zero_by_val s.accumulator
  let s := s.set_flag_negative_by_val s.accumulator
  { s with cycle := s.cycle + cycles }

def Cpu.execute_ldx (s : Cpu) (value : Nat) (cycles : Nat) : Cpu :=
  let s := { s with index_x := value }
  let s := s.set_flag_zero_by_val s.index_x
  let s := s.set_flag_negative_by_val s.index_x
  { s with cycle := s.cycle + cycles }

def Cpu.execute_ldy (s : Cpu) (value : Nat) (cycles : Nat) : Cpu :=
  let s := { s with index_y := value }
  let s := s.set_flag_zero_by_val s.index_y
  let s := s.set_flag_negative_by_val s.index_y
  { s with cycle := s.cycle + cycles }

/-- `fn execute_lsr<R>`: `(value >> 1) & !(1 >> 1)` — `1 >> 1 = 0`, so the
mask `!0 = 0xFF` is the identity on a byte; note the source sets the carry
flag to `false` unconditionally. -/
def Cpu.execute_lsr (s : Cpu) (value : Nat) (r : Cpu → Nat → Except Fault Cpu)
    (cycles : Nat) : Except Fault Cpu := do
  let result := (value >>> 1) &&& 0xFF
  let s := s.set_flag_carry false
  let s := s.set_flag_zero (decide (result = 0))
  let s := s.set_flag_negative false
  let s ← r s result
  return { s with cycle := s.cycle + cycles }

def Cpu.execute_ora (s : Cpu) (value : Nat) (cycles : Nat) : Cpu :=
  let s := { s with accumulator := s.accumulator ||| value }
  let s := s.set_flag_zero_by_val s.accumulator
  let s := s.set_flag_negative_by_val s.accumulator
  { s with cycle := s.cycle + cycles }

/-- `fn execute_rol<R>`: `(value << 1) | carry` on `u8` truncates to 8 bits. -/
def Cpu.execute_rol (s : Cpu) (value : Nat) (r : Cpu → Nat → Except Fault Cpu)
    (cycles : Nat) : Except Fault Cpu := do
  let result := (((value <<< 1) % 256) ||| (if s.get_flag_carry then 1 else 0))
  let s := s.set_flag_carry (decide ((value >>> 7) &&& 1 = 1))
  let s := s.set_flag_zero_by_val result
  let s := s.set_flag_negative_by_val result
  let s ← r s result
  return { s with cycle := s.cycle + cycles }

def Cpu.execute_ror (s : Cpu) (value : Nat) (r : Cpu → Nat → Except Fault Cpu)
    (cycles : Nat) : Except Fault Cpu := do
  let result := (value >>> 1) ||| ((if s.get_flag_carry then 1 else 0) <<< 7)
  let s := s.set_flag_carry (decide (value &&& 1 = 1))
  let s := s.set_flag_zero_by_val result
  let s := s.set_flag_negative_by_val result
  let s ← r s result
  return { s with cycle := s.cycle + cycles }

/-- `fn execute_sbc(&mut self, value: u8, cycles: u32)`. The `i16` intermediate
`acc + !value + carry` is a sum of non-negatives (at most 511), so it is
represented as a `Nat`; `result < 0` is then the same (always false) test as
on `i16`, `!value` on `u8` is `255 ^^^ value`. -/
def Cpu.execute_sbc (s : Cpu) (value : Nat) (cycles : Nat) : Cpu :=
  let acc := s.accumulator
  let result := acc + (255 ^^^ value) + (if s.get_flag_carry then 1 else 0)
  let s := { s with accumulator := result &&& 0xFF }
  let s := s.set_flag_carry (decide (¬ result < 0))
  let s := s.set_flag_zero (decide (result = 0))
  let s := s.set_flag_overflow
      (decide ((result ^^^ acc) &&& (result &&& (255 ^^^ value)) &&& 0x80 = 0x80))
  let s := s.set_flag_negative_by_val s.accumulator
  { s with cycle := s.cycle + cycles }

def Cpu.execute_st (s : Cpu) (addr value cycles : Nat) : Except Fault Cpu := do
  let s ← s.writeMem addr value
  return { s with cycle := s.cycle + cycles }

/-- `const BRANCHING_OP_CODES: [u8; 14]` -/
def BRANCHING_OP_CODES : List Nat :=
  [0x90, 0xB0, 0xF0, 0x30, 0xD0, 0x10, 0x00, 0x50, 0x70, 0x4C, 0x6C, 0x20, 0x40, 0x60]

/-- `pub fn execute_instruction(&mut self, inst: &Instruction)`, transcribed
arm by arm.  Control-flow opcodes set the program counter directly and skip
the `PC += size` epilogue; all other recognized opcodes run their executor and
then advance the program counter (wrapping `u16` addition).  The `panic!`
sites surface as `Except.error`. -/
def Cpu.execute_instruction (s : Cpu) (inst : Instruction) : Except Fault Cpu :=
  let s :=
    if s.change_interrupt_disable_flag ≠ -1 then
      let s := s.set_flag_interrupt (s.change_interrupt_disable_flag ≠ 0)
      { s with change_interrupt_disable_flag := -1 }
    else s
  if BRANCHING_OP_CODES.contains inst.op_code then do
    let (s, pc) ←
      (match inst.op_code with
      | 0x90 => .ok (s.branch_if_condition inst.arguments.1 (!s.get_flag_carry))
      | 0xB0 => .ok (s.branch_if_condition inst.arguments.1 s.get_flag_carry)
      | 0xF0 => .ok (s.branch_if_condition inst.arguments.1 s.get_flag_zero)
      | 0xD0 => .ok (s.branch_if_condition inst.arguments.1 (!s.get_flag_zero))
      | 0x30 => .ok (s.branch_if_condition inst.arguments.1 s.get_flag_negative)
      | 0x10 => .ok (s.branch_if_condition inst.arguments.1 (!s.get_flag_negative))
      | 0x70 => .ok (s.branch_if_condition inst.arguments.1 s.get_flag_overflow)
      | 0x50 => .ok (s.branch_if_condition inst.arguments.1 (!s.get_flag_overflow))
      | 0x00 =>
          let val := (s.program_counter + 2) % 65536
          let s := s.push (val >>> 8)
          let s := s.push (val &&& 0xFF)
          let s := s.push s.get_processor_status
          let s := s.set_flag_interrupt true
          let s := { s with cycle := s.cycle + 7 }
          .ok (s, 0xFFFE)
      | 0x4C => do
          let s := { s with cycle := s.cycle + 3 }
          let v ← s.get_addr_absolute inst.get_absolute_addr
          .ok (s, v)
      | 0x6C => .error .unsupportedAddressingMode
      | 0x20 => do
          let val := (s.program_counter + 2) % 65536
          let s := s.push (val >>> 8)
          let s := s.push (val &&& 0xFF)
          let s := { s with cycle := s.cycle + 6 }
          let v ← s.get_addr_absolute inst.get_absolute_addr
          .ok (s, v)
      | 0x40 =>
          let (flags, s) := s.pop
          let s := s.set_processor_status flags false
          let (low, s) := s.pop
          let (high, s) := s.pop
          let s := { s with cycle := s.cycle + 6 }
          .ok (s, (high <<< 8) ||| low)
      | 0x60 =>
          let (low, s) := s.pop
          let (high, s) := s.pop
          let s := { s with cycle := s.cycle + 6 }
          .ok (s, (((high <<< 8) ||| low) + 1) % 65536)
      | _ => .error .notImplementedBranchOpcode)
    .ok { s with program_counter := pc }
  else do
    let s ←
      (match inst.op_code with
      | 0x69 => .ok (s.execute_adc inst.arguments.1 2)
      | 0x65 => .ok (s.execute_adc (s.get_addr_zero inst.arguments.1) 3)
      | 0x75 => .ok (s.execute_adc (s.get_addr_zero_x inst.arguments.1) 4)
      | 0x6D => do
          let v ← s.get_addr_absolute inst.get_absolute_addr
          .ok (s.execute_adc v 4)
      | 0x7D => do
          let v ← s.get_addr_absolute_x inst.get_absolute_addr
          .ok (s.execute_adc v
            (increment_if_crossed_absolute 4 inst.get_absolute_addr s.index_x))
      | 0x79 => do
          let v ← s.get_addr_absolute_y inst.get_absolute_addr
          .ok (s.execute_adc v
            (increment_if_crossed_absolute 4 inst.get_absolute_addr s.index_y))
      | 0x61 => do
          let v ← s.get_addr_indexed_indirect inst.arguments.1
          .ok (s.execute_adc v 6)
      | 0x71 => do
          let v ← s.get_addr_indirect_indexed inst.arguments.1
          .ok (s.execute_adc v
            (increment_if_crossed_indirect_indexed 5 inst.arguments.1 s))
      | 0x29 => .ok (s.execute_and inst.arguments.1 2)
      | 0x25 => .ok (s.execute_and (s.get_addr_zero inst.arguments.1) 3)
      | 0x35 => .ok (s.execute_and (s.get_addr_zero_x inst.arguments.1) 4)
      | 0x2D => do
          let v ← s.get_addr_absolute inst.get_absolute_addr
          .ok (s.execute_and v 4)
      | 0x3D => do
          let v ← s.get_addr_absolute_x inst.get_absolute_addr
          .ok (s.execute_and v
            (increment_if_crossed_absolute 4 inst.get_absolute_addr s.index_x))
      | 0x39 => do
          let v ← s.get_addr_absolute_y inst.get_absolute_addr
          .ok (s.execute_and v
            (increment_if_crossed_absolute 4 inst.get_absolute_addr s.index_y))
      | 0x21 => do
          let v ← s.get_addr_indexed_indirect inst.arguments.1
          .ok (s.execute_and v 6)
      | 0x31 => do
          let v ← s.get_addr_indirect_indexed inst.arguments.1
          .ok (s.execute_and v
            (increment_if_crossed_indirect_indexed 5 inst.arguments.1 s))
      | 0x0A => s.execute_asl s.accumulator accWrite 2
      | 0x06 => s.execute_asl (s.get_addr_zero inst.arguments.1)
          (fun c r => .ok (c.set_addr_zero inst.arguments.1 r)) 5
      | 0x16 => s.execute_asl (s.get_addr_zero_x inst.arguments.1)
          (fun c r => .ok (c.set_addr_zero_x inst.arguments.1 r)) 6
      | 0x0E => do
          let v ← s.get_addr_absolute inst.get_absolute_addr
          s.execute_asl v (fun c r => c.set_addr_absolute inst.get_absolute_addr r) 6
      | 0x1E => do
          let v ← s.get_addr_absolute_x inst.get_absolute_addr
          s.execute_asl v (fun c r => c.set_addr_absolute_x inst.get_absolute_addr r) 7
      | 0x24 => .ok (s.execute_bit (s.get_addr_zero inst.arguments.1) 3)
      | 0x2C => do
          let v ← s.get_addr_absolute inst.get_absolute_addr
          .ok (s.execute_bit v 4)
      | 0x18 =>
          let s := s.set_flag_carry false
          .ok { s with cycle := s.cycle + 2 }
      | 0xD8 =>
          let s := s.set_flag_decimal false
          .ok { s with cycle := s.cycle + 2 }
      | 0x58 =>
          let s := { s with change_interrupt_disable_flag := 0 }
          .ok { s with cycle := s.cycle + 2 }
      | 0xB8 =>
          let s := s.set_flag_overflow false
          .ok { s with cycle := s.cycle + 2 }
      | 0xC9 => .ok (s.execute_cmp inst.arguments.1 2)
      | 0xC5 => .ok (s.execute_cmp (s.get_addr_zero inst.arguments.1) 3)
      | 0xD5 => .ok (s.execute_cmp (s.get_addr_zero_x inst.arguments.1) 4)
      | 0xCD => do
          let v ← s.get_addr_absolute inst.get_absolute_addr
          .ok (s.execute_cmp v 4)
      | 0xDD => do
          let v ← s.get_addr_absolute_x inst.get_absolute_addr
          .ok (s.execute_cmp v
            (increment_if_crossed_absolute 4 inst.get_absolute_addr s.index_x))
      | 0xD9 => do
          let v ← s.get_addr_absolute_y inst.get_absolute_addr
          .ok (s.execute_cmp v
            (increment_if_crossed_absolute 4 inst.get_absolute_addr s.index_y))
      | 0xC1 => do
          let v ← s.get_addr_indexed_indirect inst.arguments.1
          .ok (s.execute_cmp v 6)
      | 0xD1 => do
          let v ← s.get_addr_indirect_indexed inst.arguments.1
          .ok (s.execute_cmp v
            (increment_if_crossed_indirect_indexed 5 inst.arguments.1 s))
      | 0xE0 => .ok (s.execute_cmx inst.arguments.1 2)
      | 0xE4 => .ok (s.execute_cmx (s.get_addr_zero inst.arguments.1) 3)
      | 0xEC => do
          let v ← s.get_addr_absolute inst.get_absolute_addr
          .ok (s.execute_cmx v 4)
      | 0xC0 => .ok (s.execute_cmy inst.arguments.1 2)
      | 0xC4 => .ok (s.execute_cmy (s.get_addr_zero inst.arguments.1) 3)
      | 0xCC => do
          let v ← s.get_addr_absolute inst.get_absolute_addr
          .ok (s.execute_cmy v 4)
      | 0xC6 => s.execute_dec (s.get_addr_zero_index inst.arguments.1) 5
      | 0xD6 => s.execute_dec (s.get_addr_zero_x_index inst.arguments.1) 6
      | 0xCE => s.execute_dec inst.get_absolute_addr 6
      | 0xDE => s.execute_dec ((inst.get_absolute_addr + s.index_x) % 65536) 7
      | 0xCA =>
          let s := { s with index_x := (s.index_x + 255) % 256 }
          let s := s.set_flag_zero_by_val s.index_x
          let s := s.set_flag_negative_by_val s.index_x
          .ok { s with cycle := s.cycle + 2 }
      | 0x88 =>
          let s := { s with index_y := (s.index_y + 255) % 256 }
          let s := s.set_flag_zero_by_val s.index_y
          let s := s.set_flag_negative_by_val s.index_y
          .ok { s with cycle := s.cycle + 2 }
      | 0x49 => .ok (s.execute_eor inst.arguments.1 2)
      | 0x45 => .ok (s.execute_eor (s.get_addr_zero inst.arguments.1) 3)
      | 0x55 => .ok (s.execute_eor (s.get_addr_zero_x inst.arguments.1) 4)
      | 0x4D => do
          let v ← s.get_addr_absolute inst.get_absolute_addr
          .ok (s.execute_eor v 5)
      | 0x5D => do
          let v ← s.get_addr_absolute_x inst.get_absolute_addr
          .ok (s.execute_eor v
            (increment_if_crossed_absolute 4 inst.get_absolute_addr s.index_x))
      | 0x59 => do
          let v ← s.get_addr_absolute_y inst.get_absolute_addr
          .ok (s.execute_eor v
            (increment_if_crossed_absolute 4 inst.get_absolute_addr s.index_y))
      | 0x41 => do
          let v ← s.get_addr_indexed_indirect inst.arguments.1
          .ok (s.execute_eor v 6)
      | 0x51 => do
          let v ← s.get_addr_indirect_indexed inst.arguments.1
          .ok (s.execute_eor v
            (increment_if_crossed_indirect_indexed 5 inst.arguments.1 s))
      | 0xE6 => s.execute_inc (s.get_addr_zero_index inst.arguments.1) 5
      | 0xF6 => s.execute_inc (s.get_addr_zero_x_index inst.arguments.1) 6
      | 0xEE => s.execute_inc inst.get_absolute_addr 6
      | 0xFE => s.execute_inc ((inst.get_absolute_addr + s.index_x) % 65536) 7
      | 0xE8 =>
          let s := { s with index_x := (s.index_x + 1) % 256 }
          let s := s.set_flag_zero_by_val s.index_x
          let s := s.set_flag_negative_by_val s.index_x
          .ok { s with cycle := s.cycle + 2 }
      | 0xC8 =>
          let s := { s with index_y := (s.index_y + 1) % 256 }
          let s := s.set_flag_zero_by_val s.index_y
          let s := s.set_flag_negative_by_val s.index_y
          .ok { s with cycle := s.cycle + 2 }
      | 0xA9 => .ok (s.execute_lda inst.arguments.1 2)
      | 0xA5 => .ok (s.execute_lda (s.get_addr_zero inst.arguments.1) 3)
      | 0xB5 => .ok (s.execute_lda (s.get_addr_zero_x inst.arguments.1) 4)
      | 0xAD => do
          let v ← s.get_addr_absolute inst.get_absolute_addr
          .ok (s.execute_lda v 4)
      | 0xBD => do
          let v ← s.get_addr_absolute_x inst.get_absolute_addr
          .ok (s.execute_lda v
            (increment_if_crossed_absolute 4 inst.get_absolute_addr s.index_x))
      | 0xB9 => do
          let v ← s.get_addr_absolute_y inst.get_absolute_addr
          .ok (s.execute_lda v
            (increment_if_crossed_absolute 4 inst.get_absolute_addr s.index_y))
      | 0xA1 => do
          let v ← s.get_addr_indexed_indirect inst.arguments.1
          .ok (s.execute_lda v 6)
      | 0xB1 => do
          let v ← s.get_addr_indirect_indexed inst.arguments.1
          .ok (s.execute_lda v
            (increment_if_crossed_indirect_indexed 5 inst.arguments.1 s))
      | 0xA2 => .ok (s.execute_ldx inst.arguments.1 2)
      | 0xA6 => .ok (s.execute_ldx (s.get_addr_zero inst.arguments.1) 3)
      | 0xB6 => .ok (s.execute_ldx (s.get_addr_zero_y inst.arguments.1) 4)
      | 0xAE => do
          let v ← s.get_addr_absolute inst.get_absolute_addr
          .ok (s.execute_ldx v 4)
      | 0xBE => do
          let v ← s.get_addr_absolute_y inst.get_absolute_addr
          .ok (s.execute_ldx v
            (increment_if_crossed_absolute 4 inst.get_absolute_addr s.index_y))
      | 0xA0 => .ok (s.execute_ldy inst.arguments.1 2)
      | 0xA4 => .ok (s.execute_ldy (s.get_addr_zero inst.arguments.1) 3)
      | 0xB4 => .ok (s.execute_ldy (s.get_addr_zero_x inst.arguments.1) 4)
      | 0xAC => do
          let v ← s.get_addr_absolute inst.get_absolute_addr
          .ok (s.execute_ldy v 4)
      | 0xBC => do
          let v ← s.get_addr_absolute_x inst.get_absolute_addr
          .ok (s.execute_ldy v
            (increment_if_crossed_absolute 4 inst.get_absolute_addr s.index_x))
      | 0x4A => s.execute_lsr s.accumulator accWrite 2
      | 0x46 => s.execute_lsr (s.get_addr_zero inst.arguments.1)
          (fun c r => .ok (c.set_addr_zero inst.arguments.1 r)) 5
      | 0x56 => s.execute_lsr (s.get_addr_zero_x inst.arguments.1)
          (fun c r => .ok (c.set_addr_zero_x inst.arguments.1 r)) 5
      | 0x4E => do
          let v ← s.get_addr_absolute inst.get_absolute_addr
          s.execute_lsr v (fun c r => c.set_addr_absolute inst.get_absolute_addr r) 5
      | 0x5E => do
          let v ← s.get_addr_absolute_x inst.get_absolute_addr
          s.execute_lsr v (fun c r => c.set_addr_absolute_x inst.get_absolute_addr r) 5
      | 0xEA => .ok { s with cycle := s.cycle + 2 }
      | 0x09 => .ok (s.execute_ora inst.arguments.1 2)
      | 0x05 => .ok (s.execute_ora (s.get_addr_zero inst.arguments.1) 3)
      | 0x15 => .ok (s.execute_ora (s.get_addr_zero_x inst.arguments.1) 4)
      | 0x0D => do
          let v ← s.get_addr_absolute inst.get_absolute_addr
          .ok (s.execute_ora v 4)
      | 0x1D => do
          let v ← s.get_addr_absolute_x inst.get_absolute_addr
          .ok (s.execute_ora v
            (increment_if_crossed_absolute 4 inst.get_absolute_addr s.index_x))
      | 0x19 => do
          let v ← s.get_addr_absolute_y inst.get_absolute_addr
          .ok (s.execute_ora v
            (increment_if_crossed_absolute 4 inst.get_absolute_addr s.index_y))
      | 0x01 => do
          let v ← s.get_addr_indexed_indirect inst.arguments.1
          .ok (s.execute_ora v 6)
      | 0x11 => do
          let v ← s.get_addr_indirect_indexed inst.arguments.1
          .ok (s.execute_ora v
            (increment_if_crossed_indirect_indexed 5 inst.arguments.1 s))
      | 0x48 =>
          let s := s.push s.accumulator
          .ok { s with cycle := s.cycle + 3 }
      | 0x08 =>
          let s := s.push s.get_processor_status
          .ok { s with cycle := s.cycle + 3 }
      | 0x68 =>
          let (v, s) := s.pop
          let s := { s with accumulator := v }
          let s := s.set_flag_zero_by_val s.accumulator
          let s := s.set_flag_negative_by_val s.accumulator
          .ok { s with cycle := s.cycle + 4 }
      | 0x28 =>
          let (v, s) := s.pop
          .ok (s.set_processor_status v true)
      | 0x2A => s.execute_rol s.accumulator accWrite 2
      | 0x26 => s.execute_rol (s.get_addr_zero inst.arguments.1)
          (fun c r => .ok (c.set_addr_zero inst.arguments.1 r)) 5
      | 0x36 => s.execute_rol (s.get_addr_zero_x inst.arguments.1)
          (fun c r => .ok (c.set_addr_zero_x inst.arguments.1 r)) 5
      | 0x2E => do
          let v ← s.get_addr_absolute inst.get_absolute_addr
          s.execute_rol v (fun c r => c.set_addr_absolute inst.get_absolute_addr r) 6
      | 0x3E => do
          let v ← s.get_addr_absolute_x inst.get_absolute_addr
          s.execute_rol v (fun c r => c.set_addr_absolute_x inst.get_absolute_addr r) 6
      | 0x6A => s.execute_ror s.accumulator accWrite 2
      | 0x66 => s.execute_ror (s.get_addr_zero inst.arguments.1)
          (fun c r => .ok (c.set_addr_zero inst.arguments.1 r)) 5
      | 0x76 => s.execute_ror (s.get_addr_zero_x inst.arguments.1)
          (fun c r => .ok (c.set_addr_zero_x inst.arguments.1 r)) 5
      | 0x6E => do
          let v ← s.get_addr_absolute inst.get_absolute_addr
          s.execute_ror v (fun c r => c.set_addr_absolute inst.get_absolute_addr r) 6
      | 0x7E => do
          let v ← s.get_addr_absolute_x inst.get_absolute_addr
          s.execute_ror v (fun c r => c.set_addr_absolute_x inst.get_absolute_addr r) 6
      | 0xE9 => .ok (s.execute_sbc inst.arguments.1 2)
      | 0xE5 => .ok (s.execute_sbc (s.get_addr_zero inst.arguments.1) 3)
      | 0xF5 => .ok (s.execute_sbc (s.get_addr_zero_x inst.arguments.1) 4)
      | 0xED => do
          let v ← s.get_addr_absolute inst.get_absolute_addr
          .ok (s.execute_sbc v 4)
      | 0xFD => do
          let v ← s.get_addr_absolute_x inst.get_absolute_addr
          .ok (s.execute_sbc v
            (increment_if_crossed_absolute 4 inst.get_absolute_addr s.index_x))
      | 0xF9 => do
          let v ← s.get_addr_absolute_y inst.get_absolute_addr
          .ok (s.execute_sbc v
            (increment_if_crossed_absolute 4 inst.get_absolute_addr s.index_y))
      | 0xE1 => do
          let v ← s.get_addr_indexed_indirect inst.arguments.1
          .ok (s.execute_sbc v 6)
      | 0xF1 => do
          let v ← s.get_addr_indirect_indexed inst.arguments.1
          .ok (s.execute_sbc v
            (increment_if_crossed_indirect_indexed 5 inst.arguments.1 s))
      | 0x38 =>
          let s := s.set_flag_carry true
          .ok { s with cycle := s.cycle + 2 }
      | 0xF8 =>
          let s := s.set_flag_decimal true
          .ok { s with cycle := s.cycle + 2 }
      | 0x78 =>
          let s := { s with change_interrupt_disable_flag := 1 }
          .ok { s with cycle := s.cycle + 2 }
      | 0x85 => s.execute_st (s.get_addr_zero_index inst.arguments.1) s.accumulator 3
      | 0x95 => s.execute_st (s.get_addr_zero_x_index inst.arguments.1) s.accumulator 4
      | 0x8D => s.execute_st inst.get_absolute_addr s.accumulator 4
      | 0x9D => s.execute_st ((inst.get_absolute_addr + s.index_x) % 65536) s.accumulator 5
      | 0x99 => s.execute_st ((inst.get_absolute_addr + s.index_y) % 65536) s.accumulator 5
      | 0x81 => s.execute_st (s.get_addr_indexed_indirect_index inst.arguments.1) s.accumulator 6
      | 0x91 => s.execute_st (s.get_addr_indirect_indexed_index inst.arguments.1) s.accumulator 6
      | 0x86 => s.execute_st (s.get_addr_zero_index inst.arguments.1) s.index_x 3
      | 0x96 => s.execute_st (s.get_addr_zero_y_index inst.arguments.1) s.index_x 4
      | 0x8E => s.execute_st inst.get_absolute_addr s.index_x 4
      | 0x84 => s.execute_st (s.get_addr_zero_index inst.arguments.1) s.index_y 3
      | 0x94 => s.execute_st (s.get_addr_zero_x_index inst.arguments.1) s.index_y 4
      | 0x8C => s.execute_st inst.get_absolute_addr s.index_y 4
      | 0xAA =>
          let s := { s with index_x := s.accumulator }
          let s := s.set_flag_zero_by_val s.index_x
          let s := s.set_flag_negative_by_val s.index_x
          .ok { s with cycle := s.cycle + 2 }
      | 0xA8 =>
          let s := { s with index_y := s.accumulator }
          let s := s.set_flag_zero_by_val s.index_y
          let s := s.set_flag_negative_by_val s.index_y
          .ok { s with cycle := s.cycle + 2 }
      | 0xBA =>
          let s := { s with index_x := s.stack_pointer }
          let s := s.set_flag_zero_by_val s.index_y
          let s := s.set_flag_negative_by_val s.index_y
          .ok { s with cycle := s.cycle + 2 }
      | 0x8A =>
          let s := { s with accumulator := s.index_x }
          let s := s.set_flag_zero_by_val s.accumulator
          let s := s.set_flag_negative_by_val s.accumulator
          .ok { s with cycle := s.cycle + 2 }
      | 0x9A =>
          let s := { s with stack_pointer := s.index_x }
          .ok { s with cycle := s.cycle + 2 }
      | 0x98 =>
          let s := { s with accumulator := s.index_y }
          let s := s.set_flag_zero_by_val s.accumulator
          let s := s.set_flag_negative_by_val s.accumulator
          .ok { s with cycle := s.cycle + 2 }
      | _ => .error .unknownOpcode)
    .ok { s with program_counter := (s.program_counter + inst.size) % 65536 }

@[simp] lemma set_flag_memory (s : Cpu) (v : Bool) (o : Nat) :
    (s.set_flag v o).memory = s.memory := rfl
@[simp] lemma set_flag_program_counter (s : Cpu) (v : Bool) (o : Nat) :
    (s.set_flag v o).program_counter = s.program_counter := rfl
@[simp] lemma set_flag_stack_pointer (s : Cpu) (v : Bool) (o : Nat) :
    (s.set_flag v o).stack_pointer = s.stack_pointer := rfl
@[simp] lemma set_flag_accumulator (s : Cpu) (v : Bool) (o : Nat) :
    (s.set_flag v o).accumulator = s.accumulator := rfl
@[simp] lemma set_flag_index_x (s : Cpu) (v : Bool) (o : Nat) :
    (s.set_flag v o).index_x = s.index_x := rfl
@[simp] lemma set_flag_index_y (s : Cpu) (v : Bool) (o : Nat) :
    (s.set_flag v o).index_y = s.index_y := rfl
@[simp] lemma set_flag_cycle (s : Cpu) (v : Bool) (o : Nat) :
    (s.set_flag v o).cycle = s.cycle := rfl
@[simp] lemma set_flag_change (s : Cpu) (v : Bool) (o : Nat) :
    (s.set_flag v o).change_interrupt_disable_flag = s.change_interrupt_disable_flag := rfl

lemma and_one_testBit (v : Nat) : (v &&& 1 = 1) ↔ v.testBit 0 := by
  simp [Nat.and_one_is_mod, Nat.testBit_to_div_mod]

lemma get_flag_eq_testBit (s : Cpu) (o : Nat) :
    s.get_flag o = s.processor_status.testBit o := by
  simp [Cpu.get_flag, Nat.testBit_to_div_mod, Nat.and_one_is_mod, Nat.shiftRight_eq_div_pow]

lemma testBit_255 (o : Nat) : (255 : Nat).testBit o = decide (o < 8) := by
  rw [show (255 : Nat) = 2 ^ 8 - 1 by norm_num]
  exact Nat.testBit_two_pow_sub_one 8 o

lemma testBit_one (k : Nat) : (1 : Nat).testBit k = decide (k = 0) := by
  rw [show (1 : Nat) = 2 ^ 0 by norm_num]
  rw [Nat.testBit_two_pow]
  simp [eq_comm]

lemma testBit_set_flag (s : Cpu) (v : Bool) (o o' : Nat) (ho : o < 8) :
    (s.set_flag v o').processor_status.testBit o
      = if o = o' then v else s.processor_status.testBit o := by
  by_cases h : o = o'
  · subst h
    cases v
    · simp [Cpu.set_flag, Nat.testBit_and, Nat.testBit_xor, testBit_255, testBit_one, ho]
    · simp [Cpu.set_flag, Nat.testBit_or, testBit_one]
  · cases v
    · simp only [Cpu.set_flag, Bool.false_eq_true, if_false, Nat.testBit_and,
        Nat.testBit_xor, testBit_255, Nat.testBit_shiftLeft, testBit_one, ho, h, if_neg]
      cases hb : s.processor_status.testBit o <;> simp <;> omega
    · simp only [Cpu.set_flag, if_true, Nat.testBit_or, Nat.testBit_shiftLeft, testBit_one]
      cases hb : s.processor_status.testBit o <;> simp [h] <;> omega

lemma shiftRight_and_one (v o : Nat) : ((v >>> o) &&& 1 = 1) ↔ v.testBit o := by
  simp [Nat.testBit_to_div_mod, Nat.and_one_is_mod, Nat.shiftRight_eq_div_pow]

lemma and_128_eq_iff (X : Nat) : (X &&& 0x80 = 0x80) ↔ (X &&& 0x80 ≠ 0) := by
  rw [show (0x80 : Nat) = 2 ^ 7 by norm_num, Nat.and_two_pow]
  cases h : X.testBit 7 <;> simp

lemma and_255_eq_mod (z : Nat) : z &&& 0xFF = z % 256 := by
  have h := Nat.and_pow_two_sub_one_eq_mod z 8
  norm_num at h
  exact h

lemma adc_overflow_bridge (result A M : Nat) :
    ((result ^^^ A) &&& (result ^^^ M) &&& 0x80 = 0x80)
      ↔ ((result % 256 ^^^ A) &&& (result % 256 ^^^ M) &&& 0x80 ≠ 0) := by
  rw [and_128_eq_iff]
  rw [show (0x80 : Nat) = 2 ^ 7 by norm_num, Nat.and_two_pow, Nat.and_two_pow]
  have hm : (result % 256).testBit 7 = result.testBit 7 := by
    rw [show (256 : Nat) = 2 ^ 8 by norm_num, Nat.testBit_mod_two_pow]
    simp
  simp [Nat.testBit_and, Nat.testBit_xor, hm]

/-- C2: for every accumulator value, operand value M and carry-in (the carry
flag read as 0 or 1), after `execute_adc` the zero flag holds iff
`(A+M+c) mod 256 = 0`, the negative flag holds iff bit 7 of `(A+M+c) mod 256`
is set, the carry flag holds iff `A+M+c > 255`, the overflow flag holds iff
`(result XOR A) AND (result XOR M) AND 0x80` is nonzero (result taken mod
256), and the accumulator becomes `(A+M+c) mod 256`. -/
theorem adc_flags (s : Cpu) (M cyc : Nat) :
    ((s.execute_adc M cyc).get_flag_zero = true
        ↔ (s.accumulator + M + (if s.get_flag_carry then 1 else 0)) % 256 = 0) ∧
    ((s.execute_adc M cyc).get_flag_negative = true
        ↔ Nat.testBit ((s.accumulator + M + (if s.get_flag_carry then 1 else 0)) % 256) 7) ∧
    ((s.execute_adc M cyc).get_flag_carry = true
        ↔ s.accumulator + M + (if s.get_flag_carry then 1 else 0) > 255) ∧
    ((s.execute_adc M cyc).get_flag_overflow = true
        ↔ (((s.accumulator + M + (if s.get_flag_carry then 1 else 0)) % 256 ^^^ s.accumulator)
            &&& ((s.accumulator + M + (if s.get_flag_carry then 1 else 0)) % 256 ^^^ M)
            &&& 0x80 ≠ 0)) ∧
    (s.execute_adc M cyc).accumulator
        = (s.accumulator + M + (if s.get_flag_carry then 1 else 0)) % 256 := by
  refine ⟨?_, ?_, ?_, ?_, ?_⟩ <;>
    simp only [Cpu.execute_adc, Cpu.set_flag_carry_by_val, Cpu.set_flag_carry,
      Cpu.set_flag_zero_by_val, Cpu.set_flag_zero, Cpu.set_flag_overflow,
      Cpu.set_flag_negative_by_val, Cpu.set_flag_negative,
      Cpu.get_flag_zero, Cpu.get_flag_negative, Cpu.get_flag_carry, Cpu.get_flag_overflow,
      get_flag_eq_testBit, set_flag_accumulator, set_flag_cycle]
  · simp [testBit_set_flag]
  · simp [testBit_set_flag, shiftRight_and_one, -Nat.testBit_zero]
  · simp [testBit_set_flag]
  · simp [testBit_set_flag]
    exact adc_overflow_bridge _ _ _
  · simp [and_255_eq_mod]

/-- C1 (refuting evaluation): the memory array has 65535 entries, not 65536;
reading or writing address 0xFFFF is out of bounds and faults (here shown for
a raw access and for an absolute-mode LDA with operand address 0xFFFF), while
0xFFFE is still in bounds. -/
theorem memory_one_byte_short :
    memSize = 65535 ∧
    Cpu.new.readMem 0xFFFE = .ok 0 ∧
    Cpu.new.readMem 0xFFFF = .error .indexOutOfBounds ∧
    Cpu.new.writeMem 0xFFFF 0 = .error .indexOutOfBounds ∧
    Cpu.new.execute_instruction { op_code := 0xAD, arguments := (0xFF, 0xFF), size := 3 }
      = .error .indexOutOfBounds :=
  ⟨rfl, rfl, rfl, rfl, rfl⟩

/-- C3 (refuting evaluation): JMP-absolute (0x4C) charges 3 cycles but sets
the program counter to the BYTE STORED AT the target address (the code routes
the target through `get_addr_absolute`, a memory read), not to the target
address itself: from the fresh CPU with target 0x1234 the new program counter
is 0, and with memory[0x1234] = 0x7F it is 0x7F. -/
theorem jmp_absolute_pc_from_memory :
    ((Cpu.new.execute_instruction { op_code := 0x4C, arguments := (0x12, 0x34), size := 3 }).map
        (fun t => (t.program_counter, t.cycle)) = .ok (0, 3) ∧ (0 : Nat) ≠ 0x1234) ∧
    (({ Cpu.new with memory := fun a => if a = 0x1234 then 0x7F else 0 } : Cpu).execute_instruction
        { op_code := 0x4C, arguments := (0x12, 0x34), size := 3 }).map
        (fun t => t.program_counter) = .ok 0x7F :=
  ⟨⟨rfl, by norm_num⟩, rfl⟩

/-- C4 (refuting evaluation): the zero-page index helpers reduce the operand
byte modulo 0xFF = 255, not modulo 256: operand byte 0xFF (with X = Y = 0)
resolves to memory index 0 although 0xFF mod 256 = 0xFF. -/
theorem zero_page_modulus_255 :
    Cpu.new.get_addr_zero_index 0xFF = 0 ∧
    Cpu.new.get_addr_zero_x_index 0xFF = 0 ∧
    Cpu.new.get_addr_zero_y_index 0xFF = 0 ∧
    (0xFF : Nat) % 256 = 0xFF := by decide

/-- C5 (refuting evaluation): `set_processor_status` decodes only the carry
bit correctly; the other flag extractions use a LEFT shift `(flags << k) & 1`,
which is 0 for every k at least 1, so decoding 0xFF leaves zero, interrupt,
decimal, overflow and negative cleared, the deferred (PLP) path always stages
0, and decoding an encoded status byte does not restore the zero flag. -/
theorem decode_status_clears_flags :
    ((Cpu.new.set_processor_status 0xFF false).get_flag_carry = true ∧
     (Cpu.new.set_processor_status 0xFF false).get_flag_zero = false ∧
     (Cpu.new.set_processor_status 0xFF false).get_flag_interrupt = false ∧
     (Cpu.new.set_processor_status 0xFF false).get_flag_decimal = false ∧
     (Cpu.new.set_processor_status 0xFF false).get_flag_overflow = false ∧
     (Cpu.new.set_processor_status 0xFF false).get_flag_negative = false) ∧
    (Cpu.new.set_processor_status 0xFF true).change_interrupt_disable_flag = 0 ∧
    ((Cpu.new.set_flag_zero true).get_processor_status = 0b00110010 ∧
     Nat.testBit 0b00110010 1 = true ∧
     (Cpu.new.set_processor_status
        (Cpu.new.set_flag_zero true).get_processor_status false).get_flag_zero = false) := by
  decide

/-- C10 (refuting evaluation): an opcode absent from the dispatch table (0x02)
raises UnknownOpcode and JMP-indirect (0x6C) raises UnsupportedAddressingMode,
for every starting state; but these are not the only faults: the supported
opcode 0x8D (STA absolute) with operand address 0xFFFF raises an
out-of-bounds fault because the memory array is one byte short. -/
theorem execute_fault_kinds (s : Cpu) (a b n : Nat) :
    s.execute_instruction { op_code := 0x02, arguments := (a, b), size := n }
      = .error .unknownOpcode ∧
    s.execute_instruction { op_code := 0x6C, arguments := (a, b), size := n }
      = .error .unsupportedAddressingMode ∧
    s.execute_instruction { op_code := 0x8D, arguments := (0xFF, 0xFF), size := 3 }
      = .error .indexOutOfBounds :=
  ⟨rfl, rfl, rfl⟩

/-- C6: for every byte x and every starting stack pointer below 256 (including
0x00 and 0xFF), `push x` followed by `pop` returns x and restores the stack
pointer; the decrement on push and the increment on pop wrap modulo 256, and
both operations are total (no overflow or underflow signal). -/
theorem push_pop_roundtrip (s : Cpu) (x : Nat) (h : s.stack_pointer < 256) :
    ((s.push x).pop).1 = x ∧
    ((s.push x).pop).2.stack_pointer = s.stack_pointer ∧
    (s.push x).stack_pointer = (s.stack_pointer + 255) % 256 ∧
    ((s.pop).2).stack_pointer = (s.stack_pointer + 1) % 256 := by
  have hsp : ((s.stack_pointer + 255) % 256 + 1) % 256 = s.stack_pointer := by omega
  refine ⟨?_, ?_, rfl, rfl⟩ <;> simp [Cpu.push, Cpu.pop, hsp]

/-- Witness for C6 at stack pointer 0x00 and byte 0xAB. -/
theorem push_pop_roundtrip_witness :
    ((({ Cpu.new with stack_pointer := 0 } : Cpu).push 0xAB).pop).1 = 0xAB ∧
    ((({ Cpu.new with stack_pointer := 0 } : Cpu).push 0xAB).pop).2.stack_pointer
      = ({ Cpu.new with stack_pointer := 0 } : Cpu).stack_pointer ∧
    (({ Cpu.new with stack_pointer := 0 } : Cpu).push 0xAB).stack_pointer
      = (({ Cpu.new with stack_pointer := 0 } : Cpu).stack_pointer + 255) % 256 ∧
    ((({ Cpu.new with stack_pointer := 0 } : Cpu).pop).2).stack_pointer
      = (({ Cpu.new with stack_pointer := 0 } : Cpu).stack_pointer + 1) % 256 :=
  push_pop_roundtrip { Cpu.new with stack_pointer := 0 } 0xAB (by decide)

/-- C7: with no pending change, executing CLI (0x58) leaves the
interrupt-disable flag unchanged and stages 0 in the pending slot; the next
`execute_instruction` call (here a NOP) applies the pending change — the flag
then reads as cleared — and resets the pending slot to -1.  Likewise SEI
(0x78) stages 1 and the flag reads as set only after the following call. -/
theorem cli_sei_deferred (s : Cpu) (h : s.change_interrupt_disable_flag = -1) :
    (∃ s1 s2,
      s.execute_instruction { op_code := 0x58, arguments := (0, 0), size := 1 } = .ok s1 ∧
      s1.execute_instruction { op_code := 0xEA, arguments := (0, 0), size := 1 } = .ok s2 ∧
      s1.get_flag_interrupt = s.get_flag_interrupt ∧
      s1.change_interrupt_disable_flag = 0 ∧
      s2.get_flag_interrupt = false ∧
      s2.change_interrupt_disable_flag = -1) ∧
    (∃ s3 s4,
      s.execute_instruction { op_code := 0x78, arguments := (0, 0), size := 1 } = .ok s3 ∧
      s3.execute_instruction { op_code := 0xEA, arguments := (0, 0), size := 1 } = .ok s4 ∧
      s3.get_flag_interrupt = s.get_flag_interrupt ∧
      s3.change_interrupt_disable_flag = 1 ∧
      s4.get_flag_interrupt = true ∧
      s4.change_interrupt_disable_flag = -1) := by
  constructor
  · refine ⟨{ s with change_interrupt_disable_flag := 0, cycle := s.cycle + 2, program_counter := (s.program_counter + 1) % 65536 }, _, ?_, rfl, rfl, rfl, ?_, rfl⟩
    · unfold Cpu.execute_instruction
      rw [if_neg (by decide)]
      rw [h]
      rw [if_neg (by norm_num)]
      rfl
    · simp [Cpu.get_flag_interrupt, Cpu.set_flag_interrupt, get_flag_eq_testBit,
        testBit_set_flag]
  · refine ⟨{ s with change_interrupt_disable_flag := 1, cycle := s.cycle + 2, program_counter := (s.program_counter + 1) % 65536 }, _, ?_, rfl, rfl, rfl, ?_, rfl⟩
    · unfold Cpu.execute_instruction
      rw [if_neg (by decide)]
      rw [h]
      rw [if_neg (by norm_num)]
      rfl
    · simp [Cpu.get_flag_interrupt, Cpu.set_flag_interrupt, get_flag_eq_testBit,
        testBit_set_flag]

/-- Witness for C7 on the fresh CPU with the interrupt-disable flag set. -/
theorem cli_sei_deferred_witness :
    (∃ s1 s2,
      (Cpu.new.set_flag_interrupt true).execute_instruction
        { op_code := 0x58, arguments := (0, 0), size := 1 } = .ok s1 ∧
      s1.execute_instruction { op_code := 0xEA, arguments := (0, 0), size := 1 } = .ok s2 ∧
      s1.get_flag_interrupt = (Cpu.new.set_flag_interrupt true).get_flag_interrupt ∧
      s1.change_interrupt_disable_flag = 0 ∧
      s2.get_flag_interrupt = false ∧
      s2.change_interrupt_disable_flag = -1) ∧
    (∃ s3 s4,
      (Cpu.new.set_flag_interrupt true).execute_instruction
        { op_code := 0x78, arguments := (0, 0), size := 1 } = .ok s3 ∧
      s3.execute_instruction { op_code := 0xEA, arguments := (0, 0), size := 1 } = .ok s4 ∧
      s3.get_flag_interrupt = (Cpu.new.set_flag_interrupt true).get_flag_interrupt ∧
      s3.change_interrupt_disable_flag = 1 ∧
      s4.get_flag_interrupt = true ∧
      s4.change_interrupt_disable_flag = -1) :=
  cli_sei_deferred (Cpu.new.set_flag_interrupt true) rfl

/-- C8 (amended): a compare (CMP / CPX / CPY) sets carry iff register ≥
operand (unsigned), zero iff register = operand, and negative iff
register < operand (unsigned) — not bit 7 of the wrapping subtraction; in
particular with accumulator 20 and operand 30, CMP yields carry = false,
zero = false, negative = true. -/
theorem cmp_flags (s : Cpu) (m cyc : Nat) :
    ((s.execute_cmp m cyc).get_flag_carry = true ↔ m ≤ s.accumulator) ∧
    ((s.execute_cmp m cyc).get_flag_zero = true ↔ s.accumulator = m) ∧
    ((s.execute_cmp m cyc).get_flag_negative = true ↔ s.accumulator < m) ∧
    ((s.execute_cmx m cyc).get_flag_carry = true ↔ m ≤ s.index_x) ∧
    ((s.execute_cmx m cyc).get_flag_zero = true ↔ s.index_x = m) ∧
    ((s.execute_cmx m cyc).get_flag_negative = true ↔ s.index_x < m) ∧
    ((s.execute_cmy m cyc).get_flag_carry = true ↔ m ≤ s.index_y) ∧
    ((s.execute_cmy m cyc).get_flag_zero = true ↔ s.index_y = m) ∧
    ((s.execute_cmy m cyc).get_flag_negative = true ↔ s.index_y < m) ∧
    (({ Cpu.new with accumulator := 20 } : Cpu).execute_cmp 30 2).get_flag_carry = false ∧
    (({ Cpu.new with accumulator := 20 } : Cpu).execute_cmp 30 2).get_flag_zero = false ∧
    (({ Cpu.new with accumulator := 20 } : Cpu).execute_cmp 30 2).get_flag_negative = true := by
  refine ⟨?_, ?_, ?_, ?_, ?_, ?_, ?_, ?_, ?_, by decide, by decide, by decide⟩ <;>
    simp [Cpu.execute_cmp, Cpu.execute_cmx, Cpu.execute_cmy,
      Cpu.get_flag_carry, Cpu.get_flag_zero, Cpu.get_flag_negative,
      Cpu.set_flag_carry, Cpu.set_flag_zero, Cpu.set_flag_negative,
      get_flag_eq_testBit, testBit_set_flag, -Nat.testBit_zero]

/-- C8 (counterexample to the claim as stated): with accumulator 0 and operand
0x90, the code sets the negative flag (0 < 0x90), but bit 7 of the wrapping
unsigned subtraction (0 - 0x90) mod 256 = 0x70 is clear, so "negative iff
bit 7 of (register - operand) mod 256" is false on the code. -/
theorem cmp_negative_not_wrapping_bit7 :
    ¬ (((({ Cpu.new with accumulator := 0 } : Cpu).execute_cmp 0x90 2).get_flag_negative = true)
        ↔ Nat.testBit ((0 + 256 - 0x90) % 256) 7 = true) := by
  decide

/-- C9: ASL and ROL set the carry flag to bit 7 of the operand value and ROR
sets it to bit 0 (the bit shifted out), but LSR (refuting evaluation at
operand value 1, whose bit 0 is set) always clears the carry flag. -/
theorem shift_rotate_carry_out (s : Cpu) (v : Nat) :
    (∃ t, s.execute_asl v accWrite 2 = .ok t ∧ (t.get_flag_carry = true ↔ Nat.testBit v 7 = true)) ∧
    (∃ t, s.execute_rol v accWrite 2 = .ok t ∧ (t.get_flag_carry = true ↔ Nat.testBit v 7 = true)) ∧
    (∃ t, s.execute_ror v accWrite 2 = .ok t ∧ (t.get_flag_carry = true ↔ Nat.testBit v 0 = true)) ∧
    (∃ t, Cpu.new.execute_lsr 1 accWrite 2 = .ok t ∧ t.get_flag_carry = false
        ∧ Nat.testBit 1 0 = true) := by
  refine ⟨⟨_, rfl, ?_⟩, ⟨_, rfl, ?_⟩, ⟨_, rfl, ?_⟩, ⟨_, rfl, by decide, by decide⟩⟩ <;>
    simp [Cpu.execute_asl, Cpu.execute_rol, Cpu.execute_ror, accWrite,
      Cpu.set_flag_carry, Cpu.set_flag_zero, Cpu.set_flag_zero_by_val,
      Cpu.set_flag_negative, Cpu.set_flag_negative_by_val,
      Cpu.get_flag_carry, get_flag_eq_testBit, testBit_set_flag, shiftRight_and_one,
      and_one_testBit, -Nat.testBit_zero] <;>
    simp [Nat.testBit_to_div_mod]
